import Mathlib

/-!
Verification development for the EO_parser repository (src/EO_parser.py).

The Python program scrapes a paginated listing of executive orders,
extracts one record per document, and persists the records into a SQLite
table `executive_orders(id, title, date, content, url)`.  This file gives
a shallow embedding of the parts of the program the claims are about:

* `Database.store_eo` / `search_by_title` / `search_by_url` / `check_exists`
  (lines 76-154) — modelled over a list of rows in rowid (= insertion) order,
  since ids are assigned increasingly and rows are only appended.
* `Viewer.perform_search` (lines 278-292) — the SQL `LIKE` filter is modelled
  by an executable SQLite-LIKE pattern matcher (ASCII case-insensitive,
  `%`/`_` wildcards), applied to the five columns in the query's order.
* `Scraper.convert_date` (lines 511-521) — a faithful model of
  `datetime.strptime(raw, "%B %d, %Y")`, including that line 516 evaluates
  `raw_date.strip()` and discards the result, so no trimming takes place.
* `Scraper.get_eo_data` (lines 466-509) — the document fetch is abstracted
  to an outcome value; all failure paths produce the "N/A" sentinel draft.
* `Scraper.scrape_eo_links` (lines 399-463) — the crawl loop over listing
  pages, with the remote site abstracted to a function from URL to fetch
  outcome, and the iteration-start print and every `page.goto` attempt
  logged in the state so that cursor/fetch claims are observable.
-/

/-! ## Record store (class Database) -/

/-- A draft record as built by the scraper (`id` is `None` until stored):
the dict appended to `self.eo_data` at lines 493-499 / 503-509. -/
structure EODraft where
  id : Option Int
  title : String
  date : String
  content : String
  url : String
deriving DecidableEq

/-- A stored row of the `executive_orders` table. -/
structure EORecord where
  id : Int
  title : String
  date : String
  content : String
  url : String
deriving DecidableEq

/-- The table, as the list of its rows in rowid (= insertion) order.
`store_eo` only appends, with strictly larger `id`s, so list order is
both insertion order and the order SQLite scans rows in. -/
def search_by_title (db : List EORecord) (title : String) : Option EORecord :=
  db.find? (fun r => r.title = title)

/-- Model of `SELECT * FROM executive_orders WHERE url=?` + `fetchone` (lines 120-126). -/
def search_by_url (db : List EORecord) (url : String) : Option EORecord :=
  db.find? (fun r => r.url = url)

/-- Model of `check_exists` (lines 150-154). -/
def check_exists (db : List EORecord) (url : String) : Bool :=
  (search_by_url db url).isSome

/-- Model of `SELECT MAX(id) FROM executive_orders` + `fetchone()[0]` (lines 82-83):
`none` models SQL NULL on an empty table. -/
def maxId? (db : List EORecord) : Option Int :=
  db.foldl (fun acc r =>
    match acc with
    | none => some r.id
    | some m => some (max m r.id)) none

/-- The observable outcome of `store_eo`: the spec's
`Inserted(id) | SkippedDuplicate`. -/
inductive StoreResult where
  | inserted (id : Int)
  | skippedDuplicate
deriving DecidableEq

/-- Model of `Database.store_eo` (lines 76-96).  The duplicate test at line 78 is
`search_by_title(title) or search_by_url(url) or check_exists(url)`;
otherwise the new id is `max_id + 1`, or `1` when `MAX(id)` was NULL,
and the row is appended. -/
def store_eo (db : List EORecord) (d : EODraft) : StoreResult × List EORecord :=
  if (search_by_title db d.title).isSome || (search_by_url db d.url).isSome
      || check_exists db d.url then
    (StoreResult.skippedDuplicate, db)
  else
    let eoId : Int :=
      match maxId? db with
      | some m => m + 1
      | none => 1
    (StoreResult.inserted eoId,
      db ++ [{ id := eoId, title := d.title, date := d.date,
               content := d.content, url := d.url }])

/-- The insertion loop of `Viewer.run_scraper` (lines 236-237):
`for eo in scraped_eos: self.database.store_eo(eo)`. -/
def storeAll (db : List EORecord) (ds : List EODraft) : List EORecord :=
  ds.foldl (fun db d => (store_eo db d).2) db

/-! ## Search (Viewer.perform_search) -/

/-- Lower-case an ASCII letter; SQLite's default `LIKE` is case-insensitive
exactly for the ASCII range. -/
def asciiLowerChar (c : Char) : Char :=
  if 'A' ≤ c && c ≤ 'Z' then Char.ofNat (c.toNat + 32) else c

/-- Character comparison used by SQLite `LIKE`: ASCII-case-insensitive. -/
def likeCharEq (p c : Char) : Bool :=
  asciiLowerChar p = asciiLowerChar c

/-- Does the rest of the pattern match some suffix of the text?  (How a
`%` wildcard consumes an arbitrary amount of text.) -/
def anySuffix (f : List Char → Bool) : List Char → Bool
  | [] => f []
  | t :: ts => f (t :: ts) || anySuffix f ts

/-- SQLite `LIKE` pattern matching: `%` matches any (possibly empty)
sequence, `_` any single character, anything else one character
ASCII-case-insensitively.  The match must cover the whole text. -/
def likeMatch : List Char → List Char → Bool
  | [], ts => ts.isEmpty
  | '%' :: ps, ts => anySuffix (fun rest => likeMatch ps rest) ts
  | '_' :: _, [] => false
  | '_' :: ps, _ :: ts => likeMatch ps ts
  | _ :: _, [] => false
  | p :: ps, t :: ts => likeCharEq p t && likeMatch ps ts

/-- The five columns, in the order of the WHERE clause at line 281
(`id LIKE ? OR title LIKE ? OR date LIKE ? OR content LIKE ? OR url LIKE ?`).
SQLite applies `LIKE` to the integer `id` via its text representation. -/
def rowFields (r : EORecord) : List String :=
  [toString r.id, r.title, r.date, r.content, r.url]

/-- The pattern built at line 280: a percent sign, the search text, a percent sign. -/
def likePattern (q : String) : List Char :=
  '%' :: (q.data ++ [ '%' ])

/-- Model of `Viewer.perform_search` (lines 278-292), restricted to the rows it
fetches: the rows whose id, title, date, content or url `LIKE`-match the
`%q%` pattern, projected to `(id, title, date)` in table order. -/
def perform_search (db : List EORecord) (q : String) : List (Int × String × String) :=
  (db.filter (fun r => (rowFields r).any (fun f => likeMatch (likePattern q) f.data))).map
    (fun r => (r.id, r.title, r.date))

/-- Test whether `s` starts the text `t`, comparing ASCII-case-insensitively. -/
def startsWithCI : List Char → List Char → Bool
  | [], _ => true
  | _ :: _, [] => false
  | p :: ps, t :: ts => likeCharEq p t && startsWithCI ps ts

/-- Test whether `s` occurs in `t` as an ASCII-case-insensitive
contiguous substring. -/
def ciContains : List Char → List Char → Bool
  | [], s => startsWithCI s []
  | t :: ts, s => startsWithCI s (t :: ts) || ciContains ts s

/-- Modelled from the spec's words for the claim C9 comparison: return the
records one of whose fields contains the query as a literal,
case-sensitive substring, projected to `(id, title, date)`. -/
def claimSearch (db : List EORecord) (q : String) : List (Int × String × String) :=
  (db.filter (fun r => (rowFields r).any (fun f => decide (List.IsInfix q.data f.data)))).map
    (fun r => (r.id, r.title, r.date))

/-! ## Date normalizer (Scraper.convert_date, lines 511-521)

`datetime.strptime(raw_date, "%B %d, %Y")` compiles the format to the
anchored regex `%B\s+%d,\s+%Y` (each format whitespace becomes `\s+`),
matched case-insensitively, where `%B` is a full month name,
`%d` is `3[01]|[12]\d|0[1-9]|[1-9]`, `%Y` is exactly four digits, and any
unconverted trailing data raises `ValueError`.  The resulting
`datetime(year, month, day)` constructor validates the calendar date
(month length, leap years, `year ≥ 1`).  Note line 516 evaluates
`raw_date.strip()` but throws the result away, so the parsed string is the
*untrimmed* input and the `except ValueError` branch returns the
*untrimmed* input. -/

/-- Python's `\s` on ASCII input. -/
def pyIsSpace (c : Char) : Bool :=
  c = ' ' || c = '\t' || c = '\n' || c = '\r' || c = '\x0b' || c = '\x0c'

/-- Model of `str.strip()` (whitespace on both ends removed). -/
def pyStrip (s : String) : String :=
  ⟨((s.data.dropWhile pyIsSpace).reverse.dropWhile pyIsSpace).reverse⟩

/-- The C-locale full month names used by `%B`. -/
def monthNames : List String :=
  ["January", "February", "March", "April", "May", "June", "July",
   "August", "September", "October", "November", "December"]

/-- Case-insensitive literal match of `name` at the front of `cs`,
returning the remainder (the regex for `%B` is compiled with
`re.IGNORECASE`). -/
def dropCI : List Char → List Char → Option (List Char)
  | [], cs => some cs
  | _ :: _, [] => none
  | n :: ns, c :: cs =>
    if asciiLowerChar n = asciiLowerChar c then dropCI ns cs else none

def matchMonthAux : List String → Nat → List Char → Option (Nat × List Char)
  | [], _, _ => none
  | nm :: rest, idx, cs =>
    match dropCI nm.data cs with
    | some r => some (idx, r)
    | none => matchMonthAux rest (idx + 1) cs

/-- Match `%B` at the front: the month number (1-12) and the remainder. -/
def matchMonth (cs : List Char) : Option (Nat × List Char) :=
  matchMonthAux monthNames 1 cs

/-- Match `\s+`: at least one whitespace character, consumed greedily. -/
def dropSpaces1 : List Char → Option (List Char)
  | [] => none
  | c :: r => if pyIsSpace c then some (r.dropWhile pyIsSpace) else none

/-- The alternatives of the `%d` regex `3[01]|[12]\d|0[1-9]|[1-9]`, in
regex order, as (day value, remainder) candidates for backtracking. -/
def dayCandidates : List Char → List (Nat × List Char)
  | c1 :: c2 :: r =>
    (if c1 = '3' && (c2 = '0' || c2 = '1') then [(30 + (c2.toNat - 48), r)] else []) ++
    (if (c1 = '1' || c1 = '2') && c2.isDigit
      then [((c1.toNat - 48) * 10 + (c2.toNat - 48), r)] else []) ++
    (if c1 = '0' && ('1' ≤ c2 && c2 ≤ '9') then [(c2.toNat - 48, r)] else []) ++
    (if '1' ≤ c1 && c1 ≤ '9' then [(c1.toNat - 48, c2 :: r)] else [])
  | [c1] => if '1' ≤ c1 && c1 ≤ '9' then [(c1.toNat - 48, [])] else []
  | [] => []

/-- Match `,\s+%Y` and the end of the string after the day: a comma, at
least one whitespace, exactly four digits, nothing further (trailing
characters would be "unconverted data"). -/
def matchCommaSpaceYear : List Char → Option Nat
  | ',' :: r =>
    match dropSpaces1 r with
    | some [a, b, c, d] =>
      if a.isDigit && b.isDigit && c.isDigit && d.isDigit then
        some (((a.toNat - 48) * 10 + (b.toNat - 48)) * 100 +
          ((c.toNat - 48) * 10 + (d.toNat - 48)))
      else none
    | _ => none
  | _ => none

/-- Try the `%d` alternatives in regex order; the first whose continuation
also matches wins (regex backtracking). -/
def firstDayYear : List (Nat × List Char) → Option (Nat × Nat)
  | [] => none
  | (d, r) :: rest =>
    match matchCommaSpaceYear r with
    | some y => some (d, y)
    | none => firstDayYear rest

/-- Model of `strptime(s, "%B %d, %Y")` up to the regex phase: month, day, year. -/
def strptimeBdY (s : String) : Option (Nat × Nat × Nat) :=
  match matchMonth s.data with
  | none => none
  | some (m, r1) =>
    match dropSpaces1 r1 with
    | none => none
    | some r2 =>
      match firstDayYear (dayCandidates r2) with
      | none => none
      | some (d, y) => some (m, d, y)

def isLeapYear (y : Nat) : Bool :=
  y % 4 = 0 && (y % 100 ≠ 0 || y % 400 = 0)

def daysInMonth (y m : Nat) : Nat :=
  if m = 2 then (if isLeapYear y then 29 else 28)
  else if m = 4 || m = 6 || m = 9 || m = 11 then 30
  else 31

/-- Validity check done by the `datetime(year, month, day)` constructor
(a failure raises `ValueError`, caught at line 520). -/
def validDate (y m d : Nat) : Bool :=
  1 ≤ y && y ≤ 9999 && 1 ≤ m && m ≤ 12 && 1 ≤ d && d ≤ daysInMonth y m

def pad2 (n : Nat) : String :=
  if n < 10 then "0" ++ toString n else toString n

def pad4 (n : Nat) : String :=
  if n < 10 then "000" ++ toString n
  else if n < 100 then "00" ++ toString n
  else if n < 1000 then "0" ++ toString n
  else toString n

/-- Model of `date_obj.strftime("%Y-%m-%d")` (line 518). -/
def formatYMD (y m d : Nat) : String :=
  pad4 y ++ "-" ++ pad2 m ++ "-" ++ pad2 d

/-- Model of `Scraper.convert_date` (lines 511-521): parse the *raw* input (the
`raw_date.strip()` at line 516 is a no-op because its result is
discarded) and return the `YYYY-MM-DD` rendering on success, the raw
input unchanged on any `ValueError`. -/
def convert_date (raw : String) : String :=
  match strptimeBdY raw with
  | some (m, d, y) => if validDate y m d then formatYMD y m d else raw
  | none => raw

/-- Modelled from the spec's words (C5 comparison definition): trim the
input first, parse the trimmed string, and on failure return the
*trimmed* original. -/
def normalizeSpec (raw : String) : String :=
  match strptimeBdY (pyStrip raw) with
  | some (m, d, y) => if validDate y m d then formatYMD y m d else pyStrip raw
  | none => pyStrip raw

/-! ## Document extractor (Scraper.get_eo_data, lines 466-509)

The browser interaction is abstracted into the outcome of fetching the
document: either the navigation / readiness wait fails (timeout, parse
error — anything thrown before the soup is built), or the rendered page is
available with its optional headline element, optional first `<time>`
element, and the text of all `<p>` elements.  Reading `.text` of a missing
element raises `AttributeError`; every exception is caught by the
`except Exception` at line 501, which appends the `"N/A"` sentinel. -/

/-- A rendered document page, as the markup queries at lines 484-487
observe it. -/
structure DocPage where
  headline : Option String
  timeText : Option String
  paragraphs : List String
deriving DecidableEq

/-- Outcome of `page.goto` + `page.wait_for_selector` + parsing for one
document URL. -/
inductive DocFetch where
  | fetchFailure
  | fetched (pg : DocPage)
deriving DecidableEq

/-- The sentinel failure record appended at lines 503-509. -/
def sentinelRecord (url : String) : EODraft :=
  { id := none, title := "N/A", date := "N/A", content := "N/A", url := url }

/-- Model of `Scraper.get_eo_data` (lines 466-509): the draft record appended to
`self.eo_data` for the given url and fetch outcome.  The function is
total: every failure path degrades to the sentinel record. -/
def get_eo_data (fetch : DocFetch) (url : String) : EODraft :=
  match fetch with
  | DocFetch.fetchFailure => sentinelRecord url
  | DocFetch.fetched pg =>
    match pg.headline with
    | none => sentinelRecord url
    | some title =>
      match pg.timeText with
      | none => sentinelRecord url
      | some rawDate =>
        { id := none, title := title, date := convert_date rawDate,
          content := String.intercalate "\n" pg.paragraphs, url := url }

/-- The failure cases enumerated by C2: navigation/wait failure, missing
headline element, missing `<time>` element. -/
def extractionFails (fetch : DocFetch) : Bool :=
  match fetch with
  | DocFetch.fetchFailure => true
  | DocFetch.fetched pg => pg.headline.isNone || pg.timeText.isNone

/-! ## Pagination crawler (Scraper.scrape_eo_links, lines 399-463)

The remote listing is abstracted to a function from URL to fetch outcome:
either the `goto`/`wait_for_selector` pair fails (any exception before the
soup exists, caught at lines 425-428), or it succeeds and yields the
page-number anchor texts of a found-and-truthy pagination control (or
`none` when the control is absent) together with the candidate hrefs of
the listing's item container.  The state records, besides the loop
variables `current_page`, `total_pages`, `selected_url`, `eo_links` and
`eo_data`, two observation logs mirroring the program's own actions: the
page number printed at the start of each iteration (line 416) and the URL
handed to `page.goto` on each iteration (line 418). -/

/-- Parsing a nonempty run of decimal digits. -/
def digitsValAux : List Char → Nat → Option Nat
  | [], acc => some acc
  | c :: r, acc =>
    if c.isDigit then digitsValAux r (acc * 10 + (c.toNat - 48)) else none

def digitsVal : List Char → Option Nat
  | [] => none
  | cs => digitsValAux cs 0

/-- Python's `int(text)`: whitespace stripped, optional sign, decimal
digits; anything else raises `ValueError` (digit-group underscores are
not modelled — no claim involves them). -/
def pyInt (s : String) : Option Int :=
  match (pyStrip s).data with
  | '+' :: r => (digitsVal r).map (fun (n : Nat) => (n : Int))
  | '-' :: r => (digitsVal r).map (fun (n : Nat) => -(n : Int))
  | r => (digitsVal r).map (fun (n : Nat) => (n : Int))

/-- Outcome of fetching one listing page. -/
inductive FetchResult where
  | failure
  | success (pagination : Option (List String)) (hrefs : List String)
deriving DecidableEq

/-- Exceptions that escape the loop body outside the lines-415-428 `try`:
`[-1]` on an empty anchor list and `int()` on a non-numeric text.  They
propagate out of `scrape_eo_links` and abort the crawl (they are caught
only by `launch_scraper`). -/
inductive CrawlError where
  | indexError
  | valueError
deriving DecidableEq

deriving instance DecidableEq for Except

structure CrawlState where
  currentPage : Int
  totalPages : Int
  selectedUrl : String
  eoLinks : List String
  eoData : List EODraft
  printedPages : List Int
  fetchedUrls : List String
deriving DecidableEq

def foundation_url : String :=
  "https://www.whitehouse.gov/presidential-actions/executive-orders/"

def presidentialActionsUrl : String :=
  "https://www.whitehouse.gov/presidential-actions/"

/-- The listing URL recomputation at line 463: the root URL followed by
a page-number suffix. -/
def pageUrl (n : Int) : String :=
  foundation_url ++ "page/" ++ toString n ++ "/"

/-- Lines 431-435: on page 1, if a (truthy) pagination control was found,
take the last `a.page-numbers` text and `int()` it; `[-1]` on an empty
list raises `IndexError` and a non-numeric text raises `ValueError`. -/
def resolveTotalPages (pagination : Option (List String)) (total : Int) :
    Except CrawlError Int :=
  match pagination with
  | none => Except.ok total
  | some texts =>
    match texts.getLast? with
    | none => Except.error CrawlError.indexError
    | some t =>
      match pyInt t with
      | none => Except.error CrawlError.valueError
      | some n => Except.ok n

/-- Lines 437-448: build `found_links` and extend `self.eo_links`,
skipping the two non-document URLs and anything already in `eo_links`. -/
def collectNewLinks (eoLinks hrefs : List String) : List String × List String :=
  hrefs.foldl (fun acc href =>
    if href = foundation_url || href = presidentialActionsUrl then acc
    else if href ∈ acc.2 then acc
    else (acc.1 ++ [href], acc.2 ++ [href])) ([], eoLinks)

/-- One iteration of the `while` body (lines 407-463), entered with
`current_page ≤ total_pages`.  On a fetch/wait failure (lines 425-428)
only the cursor advances — `selected_url` is *not* recomputed.  On
success, page 1 resolves `total_pages`, links are collected, each found
document is extracted, and then the cursor advances and `selected_url` is
recomputed for the new cursor value. -/
def crawlStep (site : String → FetchResult) (docs : String → DocFetch)
    (s : CrawlState) : Except CrawlError CrawlState :=
  match site s.selectedUrl with
  | FetchResult.failure =>
    Except.ok { s with
        currentPage := s.currentPage + 1,
        printedPages := s.printedPages ++ [s.currentPage],
        fetchedUrls := s.fetchedUrls ++ [s.selectedUrl] }
  | FetchResult.success pagination hrefs =>
    match (if s.currentPage = 1
        then resolveTotalPages pagination s.totalPages
        else Except.ok s.totalPages) with
    | Except.error e => Except.error e
    | Except.ok total2 =>
      let fl := collectNewLinks s.eoLinks hrefs
      Except.ok { currentPage := s.currentPage + 1,
                  totalPages := total2,
                  selectedUrl := pageUrl (s.currentPage + 1),
                  eoLinks := fl.2,
                  eoData := s.eoData ++ fl.1.map (fun u => get_eo_data (docs u) u),
                  printedPages := s.printedPages ++ [s.currentPage],
                  fetchedUrls := s.fetchedUrls ++ [s.selectedUrl] }

theorem crawlStep_ok_currentPage (site : String → FetchResult)
    (docs : String → DocFetch) (s s2 : CrawlState)
    (h : crawlStep site docs s = Except.ok s2) :
    s2.currentPage = s.currentPage + 1 := by
  unfold crawlStep at h
  split at h
  · injection h with h2
    subst h2
    rfl
  · split at h
    · exact absurd h (by simp)
    · injection h with h2
      subst h2
      rfl

theorem crawlStep_ok_totalPages (site : String → FetchResult)
    (docs : String → DocFetch) (s s2 : CrawlState)
    (h : crawlStep site docs s = Except.ok s2) (h1 : s.currentPage ≠ 1) :
    s2.totalPages = s.totalPages := by
  unfold crawlStep at h
  split at h
  · injection h with h2
    subst h2
    rfl
  · split at h
    · exact absurd h (by simp)
    · next t ht =>
      rw [if_neg h1] at ht
      injection ht with ht2
      injection h with h2
      subst h2
      exact ht2.symm

/-- The `while current_page <= total_pages` loop (lines 407-463).  The
first component of the measure handles the single iteration that can
still raise `total_pages` (only an iteration with `current_page = 1` can
change it); afterwards the remaining distance to `total_pages` shrinks. -/
def crawlLoop (site : String → FetchResult) (docs : String → DocFetch)
    (s : CrawlState) : Except CrawlError CrawlState :=
  if h : s.currentPage ≤ s.totalPages then
    match hstep : crawlStep site docs s with
    | Except.error e => Except.error e
    | Except.ok s2 => crawlLoop site docs s2
  else Except.ok s
termination_by
  ((if s.currentPage ≤ 1 then 1 else 0 : Nat), (s.totalPages + 1 - s.currentPage).toNat)
decreasing_by
  have hc := crawlStep_ok_currentPage site docs s s2 hstep
  have ht := crawlStep_ok_totalPages site docs s s2 hstep
  rw [Prod.lex_def]
  by_cases h1 : s.currentPage = 1
  · left
    have : ¬ s2.currentPage ≤ 1 := by omega
    simp [h1, this]
  · right
    have htot := ht h1
    constructor
    · split_ifs <;> omega
    · rw [htot]
      omega

/-- Model of `Scraper.scrape_eo_links` (lines 399-463): run the loop from page 1
with the provisional `total_pages = 1` and `selected_url` at the listing
root. -/
def scrape_eo_links (site : String → FetchResult) (docs : String → DocFetch) :
    Except CrawlError CrawlState :=
  crawlLoop site docs
    { currentPage := 1, totalPages := 1, selectedUrl := foundation_url,
      eoLinks := [], eoData := [], printedPages := [], fetchedUrls := [] }

theorem crawlLoop_stop (site : String → FetchResult) (docs : String → DocFetch)
    (s : CrawlState) (h : ¬ s.currentPage ≤ s.totalPages) :
    crawlLoop site docs s = Except.ok s := by
  rw [crawlLoop]
  rw [dif_neg h]

theorem crawlLoop_ok_step (site : String → FetchResult) (docs : String → DocFetch)
    (s s2 : CrawlState) (h : s.currentPage ≤ s.totalPages)
    (hs : crawlStep site docs s = Except.ok s2) :
    crawlLoop site docs s = crawlLoop site docs s2 := by
  conv_lhs => rw [crawlLoop]
  rw [dif_pos h]
  split
  · next e he =>
    rw [hs] at he
    exact absurd he (by simp)
  · next s3 hs3 =>
    rw [hs] at hs3
    injection hs3 with h4
    rw [h4]

theorem crawlLoop_error_step (site : String → FetchResult) (docs : String → DocFetch)
    (s : CrawlState) (e : CrawlError) (h : s.currentPage ≤ s.totalPages)
    (hs : crawlStep site docs s = Except.error e) :
    crawlLoop site docs s = Except.error e := by
  conv_lhs => rw [crawlLoop]
  rw [dif_pos h]
  split
  · next e2 he =>
    rw [hs] at he
    injection he with h4
    rw [h4]
  · next s3 hs3 =>
    rw [hs] at hs3
    exact absurd hs3 (by simp)

/-! ### Concrete crawl scenarios used by individual claims -/

/-- A remote whose first listing page has a truthy pagination control with
no `a.page-numbers` anchors at all. -/
def siteEmptyPagination : String → FetchResult := fun url =>
  if url = foundation_url then FetchResult.success (Option.some []) []
  else FetchResult.failure

def docsEmptyPagination : String → DocFetch := fun _ => DocFetch.fetchFailure

/-- Same empty pagination control, but with a document link on the page:
the link is never reached because the `IndexError` fires first. -/
def siteEmptyPaginationW : String → FetchResult := fun url =>
  if url = foundation_url
    then FetchResult.success (Option.some [])
      ["https://www.whitehouse.gov/presidential-actions/some-eo/"]
  else FetchResult.failure

def docsEmptyPaginationW : String → DocFetch := fun _ =>
  DocFetch.fetched { headline := Option.some "T", timeText := Option.some "D",
                     paragraphs := [] }

/-- A remote where page 1 succeeds and resolves 5 total pages, and every
other URL fails to fetch. -/
def siteFailAfterFirst : String → FetchResult := fun url =>
  if url = foundation_url
    then FetchResult.success (Option.some ["2", "3", "4", "5"]) []
  else FetchResult.failure

def docsFailAfterFirst : String → DocFetch := fun _ => DocFetch.fetchFailure

/-- A remote with five listing pages that all fetch successfully and link
to no documents. -/
def siteFivePages : String → FetchResult := fun url =>
  if url = foundation_url
    then FetchResult.success (Option.some ["1", "2", "3", "4", "5"]) []
  else if url = pageUrl 2 || url = pageUrl 3 || url = pageUrl 4 || url = pageUrl 5
    then FetchResult.success Option.none []
  else FetchResult.failure

def docsFivePages : String → DocFetch := fun _ => DocFetch.fetchFailure

/-! ## Theorems: C1, C10, C3, C4 (store) -/

/-- Helper: whenever the title or the url of the draft is already present,
`store_eo` takes the skip branch at lines 78-80 and leaves the table alone. -/
theorem store_eo_skip_of_match (db : List EORecord) (d : EODraft)
    (h : (search_by_title db d.title).isSome = true ∨
         (search_by_url db d.url).isSome = true) :
    store_eo db d = (StoreResult.skippedDuplicate, db) := by
  unfold store_eo
  rcases h with h | h <;> simp [h, check_exists]

/-- Helper: membership gives a successful `find?`. -/
theorem find?_isSome_of_mem {α : Type} (p : α → Bool) (l : List α) (a : α)
    (ha : a ∈ l) (hp : p a = true) : (l.find? p).isSome = true := by
  rw [List.find?_isSome]
  exact ⟨a, ha, hp⟩

/-- C1: a draft whose url or title equals the url or title of an
already-stored record is skipped as a duplicate, and the store is
unchanged by the call. -/
theorem store_eo_duplicate_skipped (db : List EORecord) (d : EODraft)
    (h : ∃ r ∈ db, r.url = d.url ∨ r.title = d.title) :
    store_eo db d = (StoreResult.skippedDuplicate, db) := by
  obtain ⟨r, hr, hmatch⟩ := h
  apply store_eo_skip_of_match
  rcases hmatch with hu | ht
  · right
    exact find?_isSome_of_mem _ _ r hr (by simp [hu])
  · left
    exact find?_isSome_of_mem _ _ r hr (by simp [ht])

/-- Witness for C1 on a concrete store: the second draft shares only the
url, the third only the title, and both are skipped without a write. -/
theorem store_eo_duplicate_skipped_witness :
    (∃ r ∈ [({ id := 1, title := "T1", date := "D", content := "C",
               url := "u1" } : EORecord)],
        r.url = "u1" ∨ r.title = "T2") ∧
    store_eo [{ id := 1, title := "T1", date := "D", content := "C", url := "u1" }]
      { id := none, title := "T2", date := "D2", content := "C2", url := "u1" } =
      (StoreResult.skippedDuplicate,
        [{ id := 1, title := "T1", date := "D", content := "C", url := "u1" }]) := by
  refine ⟨⟨_, List.mem_singleton_self _, Or.inl rfl⟩, ?_⟩
  exact store_eo_duplicate_skipped _ _ ⟨_, List.mem_singleton_self _, Or.inl rfl⟩

/-- C10: once some stored record has title `"N/A"`, every later draft with
title `"N/A"` is skipped as a duplicate whatever its url is, so a second
sentinel failure record is never persisted. -/
theorem store_eo_single_sentinel (db : List EORecord) (d : EODraft)
    (hd : d.title = "N/A") (h : ∃ r ∈ db, r.title = "N/A") :
    store_eo db d = (StoreResult.skippedDuplicate, db) := by
  obtain ⟨r, hr, ht⟩ := h
  apply store_eo_skip_of_match
  left
  exact find?_isSome_of_mem _ _ r hr (by simp [ht, hd])

/-- Witness for C10: the stored sentinel has url `"u1"`, the new sentinel
has the different url `"u2"`, and it is still skipped. -/
theorem store_eo_single_sentinel_witness :
    store_eo [{ id := 1, title := "N/A", date := "N/A", content := "N/A", url := "u1" }]
      { id := none, title := "N/A", date := "N/A", content := "N/A", url := "u2" } =
      (StoreResult.skippedDuplicate,
        [{ id := 1, title := "N/A", date := "N/A", content := "N/A", url := "u1" }]) :=
  store_eo_single_sentinel _ _ rfl ⟨_, List.mem_singleton_self _, rfl⟩

/-- Counterexample to C3: the draft's url `"u2"` is not stored, but its
title `"A"` collides with row 1, so `store_eo` skips it (line 78 checks the
title too) and `search_by_url "u2"` afterwards finds nothing at all, not a
record equal to the draft. -/
theorem store_then_find_counterexample :
    search_by_url [{ id := 1, title := "A", date := "d", content := "c", url := "u1" }]
      "u2" = none ∧
    store_eo [{ id := 1, title := "A", date := "d", content := "c", url := "u1" }]
      { id := none, title := "A", date := "d2", content := "c2", url := "u2" } =
      (StoreResult.skippedDuplicate,
        [{ id := 1, title := "A", date := "d", content := "c", url := "u1" }]) ∧
    search_by_url
      (store_eo [{ id := 1, title := "A", date := "d", content := "c", url := "u1" }]
        { id := none, title := "A", date := "d2", content := "c2", url := "u2" }).2
      "u2" = none := by
  decide

/-- C3 as amended: when neither the draft's url nor its title is already
stored, `store_eo` inserts a row carrying all four draft fields plus a
fresh integer id, and `search_by_url` immediately afterwards returns
exactly that row. -/
theorem store_then_find_by_url (db : List EORecord) (d : EODraft)
    (h : ∀ r ∈ db, r.url ≠ d.url ∧ r.title ≠ d.title) :
    ∃ i, store_eo db d =
        (StoreResult.inserted i,
          db ++ [{ id := i, title := d.title, date := d.date,
                   content := d.content, url := d.url }]) ∧
      search_by_url (store_eo db d).2 d.url =
        some { id := i, title := d.title, date := d.date,
               content := d.content, url := d.url } := by
  have ht : search_by_title db d.title = none := by
    unfold search_by_title
    rw [List.find?_eq_none]
    intro r hr
    simp [(h r hr).2]
  have hu : search_by_url db d.url = none := by
    unfold search_by_url
    rw [List.find?_eq_none]
    intro r hr
    simp [(h r hr).1]
  have hstore : store_eo db d =
      (StoreResult.inserted (match maxId? db with | some m => m + 1 | none => (1 : Int)),
        db ++ [{ id := (match maxId? db with | some m => m + 1 | none => (1 : Int)),
                 title := d.title, date := d.date,
                 content := d.content, url := d.url }]) := by
    simp [store_eo, check_exists, ht, hu]
  refine ⟨(match maxId? db with | some m => m + 1 | none => (1 : Int)), hstore, ?_⟩
  rw [hstore]
  unfold search_by_url at hu ⊢
  rw [List.find?_append, hu]
  simp

/-- Witness for C3's amended theorem at a store with one unrelated row. -/
theorem store_then_find_by_url_witness :
    ∃ i, store_eo [{ id := 1, title := "A", date := "d", content := "c", url := "u1" }]
        { id := none, title := "B", date := "d2", content := "c2", url := "u2" } =
        (StoreResult.inserted i,
          [{ id := 1, title := "A", date := "d", content := "c", url := "u1" }] ++
            [{ id := i, title := "B", date := "d2", content := "c2", url := "u2" }]) ∧
      search_by_url
        (store_eo [{ id := 1, title := "A", date := "d", content := "c", url := "u1" }]
          { id := none, title := "B", date := "d2", content := "c2", url := "u2" }).2
        "u2" =
        some { id := i, title := "B", date := "d2", content := "c2", url := "u2" } :=
  store_then_find_by_url _ _ (by decide)

/-- The list `[1, 2, ..., n]` as integers: the ids of an `n`-row table built by
inserting `n` fresh records into an empty store. -/
def idsUpto (n : Nat) : List Int :=
  List.map (fun (k : Nat) => (k : Int) + 1) (List.range n)

theorem idsUpto_succ (n : Nat) :
    idsUpto (n + 1) = idsUpto n ++ [(n : Int) + 1] := by
  unfold idsUpto
  rw [List.range_succ, List.map_append]
  rfl

theorem maxId?_append (db : List EORecord) (r : EORecord) :
    maxId? (db ++ [r]) =
      some ((maxId? db).elim r.id (fun m => max m r.id)) := by
  unfold maxId?
  rw [List.foldl_append]
  generalize List.foldl
    (fun acc r =>
      match acc with
      | none => some r.id
      | some m => some (max m r.id)) none db = acc
  cases acc <;> rfl

/-- Invariant behind C4: starting from a table whose ids are `1..n` (with
`MAX(id) = n`), inserting drafts whose titles and urls are fresh and
pairwise distinct extends the id column to `1..n+k`. -/
theorem storeAll_ids_aux (ds : List EODraft) :
    ∀ (db : List EORecord) (n : Nat),
      db.map (fun r => r.id) = idsUpto n →
      maxId? db = (if n = 0 then none else some (n : Int)) →
      ((db.map fun r => r.title) ++ (ds.map fun d => d.title)).Nodup →
      ((db.map fun r => r.url) ++ (ds.map fun d => d.url)).Nodup →
      (storeAll db ds).map (fun r => r.id) = idsUpto (n + ds.length) := by
  induction ds with
  | nil =>
    intro db n hid _ _ _
    simpa [storeAll] using hid
  | cons d ds ih =>
    intro db n hid hmax hT hU
    have hdT : ∀ r ∈ db, r.title ≠ d.title := by
      rw [List.nodup_append] at hT
      intro r hr heq
      exact hT.2.2 (List.mem_map_of_mem _ hr)
        (by rw [heq]; simp)
    have hdU : ∀ r ∈ db, r.url ≠ d.url := by
      rw [List.nodup_append] at hU
      intro r hr heq
      exact hU.2.2 (List.mem_map_of_mem _ hr)
        (by rw [heq]; simp)
    have ht : search_by_title db d.title = none := by
      unfold search_by_title
      rw [List.find?_eq_none]
      intro r hr
      simp [hdT r hr]
    have hu : search_by_url db d.url = none := by
      unfold search_by_url
      rw [List.find?_eq_none]
      intro r hr
      simp [hdU r hr]
    have hstep : (store_eo db d).2 =
        db ++ [{ id := (if n = 0 then (1 : Int) else (n : Int) + 1),
                 title := d.title, date := d.date,
                 content := d.content, url := d.url }] := by
      simp only [store_eo, check_exists, ht, hu, Option.isSome_none,
        Bool.or_self, Bool.or_false, if_false, hmax]
      rcases Nat.eq_zero_or_pos n with h0 | h0
      · simp [h0]
      · simp [Nat.pos_iff_ne_zero.mp h0]
    have hid' : ((store_eo db d).2).map (fun r => r.id) = idsUpto (n + 1) := by
      rw [hstep, List.map_append, hid, idsUpto_succ]
      rcases Nat.eq_zero_or_pos n with h0 | h0
      · simp [h0]
      · simp [Nat.pos_iff_ne_zero.mp h0]
    have hmax' : maxId? (store_eo db d).2 =
        (if n + 1 = 0 then none else some ((n : Int) + 1)) := by
      rw [hstep, maxId?_append, hmax]
      rcases Nat.eq_zero_or_pos n with h0 | h0
      · simp [h0]
      · have hn : ¬ n = 0 := Nat.pos_iff_ne_zero.mp h0
        simp only [hn, if_false, Nat.succ_ne_zero, Option.elim, Nat.cast_succ]
        rw [max_eq_right (by linarith)]
    have hT' : (((store_eo db d).2).map (fun r => r.title) ++
        (ds.map fun d => d.title)).Nodup := by
      rw [hstep, List.map_append]
      have : (db.map fun r => r.title) ++ [d.title] ++ (ds.map fun d => d.title) =
          (db.map fun r => r.title) ++ (d.title :: ds.map fun d => d.title) := by
        simp
      simpa [this] using hT
    have hU' : (((store_eo db d).2).map (fun r => r.url) ++
        (ds.map fun d => d.url)).Nodup := by
      rw [hstep, List.map_append]
      have : (db.map fun r => r.url) ++ [d.url] ++ (ds.map fun d => d.url) =
          (db.map fun r => r.url) ++ (d.url :: ds.map fun d => d.url) := by
        simp
      simpa [this] using hU
    have := ih (store_eo db d).2 (n + 1) hid' hmax' hT' hU'
    have harith : n + 1 + ds.length = n + (ds.length + 1) := by omega
    simpa [storeAll, harith] using this

/-- C4: `store_eo` assigns the id `1 + MAX(id)` (so `1` on an empty table),
and inserting a list of pairwise-fresh drafts into an empty store yields
the ids `1..N` in insertion order — strictly increasing and never reused. -/
theorem store_eo_id_assignment :
    (∀ (db : List EORecord) (d : EODraft),
        (∀ r ∈ db, r.title ≠ d.title ∧ r.url ≠ d.url) →
        (store_eo db d).1 = StoreResult.inserted ((maxId? db).getD 0 + 1)) ∧
    (∀ ds : List EODraft,
        (ds.map fun d => d.title).Nodup →
        (ds.map fun d => d.url).Nodup →
        (storeAll [] ds).map (fun r => r.id) = idsUpto ds.length) := by
  constructor
  · intro db d h
    have ht : search_by_title db d.title = none := by
      unfold search_by_title
      rw [List.find?_eq_none]
      intro r hr
      simp [(h r hr).1]
    have hu : search_by_url db d.url = none := by
      unfold search_by_url
      rw [List.find?_eq_none]
      intro r hr
      simp [(h r hr).2]
    simp only [store_eo, check_exists, ht, hu, Option.isSome_none,
      Bool.or_self, Bool.or_false, if_false]
    cases maxId? db <;> rfl
  · intro ds hT hU
    have := storeAll_ids_aux ds [] 0 (by rfl) (by rfl)
      (by simpa using hT) (by simpa using hU)
    simpa using this

/-- Witness for C4: inserting two fresh drafts into the empty store gives
ids `[1, 2]`, and the first insertion reports `Inserted 1`. -/
theorem store_eo_id_assignment_witness :
    (store_eo []
        { id := none, title := "T1", date := "d1", content := "c1", url := "u1" }).1 =
      StoreResult.inserted ((maxId? ([] : List EORecord)).getD 0 + 1) ∧
    (storeAll []
        [{ id := none, title := "T1", date := "d1", content := "c1", url := "u1" },
         { id := none, title := "T2", date := "d2", content := "c2", url := "u2" }]).map
      (fun r => r.id) = idsUpto 2 :=
  ⟨store_eo_id_assignment.1 [] _ (by simp),
   store_eo_id_assignment.2 _ (by decide) (by decide)⟩

/-! ## Theorems: C5 (date normalizer), C2 (extractor) -/

/-- C5 (code defect): `convert_date` does not trim its input — line 516
evaluates `raw_date.strip()` but discards the result.  On the input
`" January 20, 2025"` (one leading space) the untrimmed parse fails
against the anchored pattern and the untrimmed string comes back
unchanged, while the same input parses to `"2025-01-20"` under the spec's
trim-first normalization (as does the already-trimmed input); a
non-date string is passed through unchanged but untrimmed. -/
theorem convert_date_discards_strip :
    convert_date " January 20, 2025" = " January 20, 2025" ∧
    convert_date "January 20, 2025" = "2025-01-20" ∧
    normalizeSpec " January 20, 2025" = "2025-01-20" ∧
    convert_date "not a date" = "not a date" := by
  decide

/-- C2: `get_eo_data` always carries the input url through to the record
it produces, and on every failure case (fetch/wait failure, missing
headline element, missing time element) the record is exactly the
`"N/A"` sentinel with that url.  Totality of `get_eo_data` reflects that
the `except Exception` handler lets none of these failures escape. -/
theorem get_eo_data_sentinel (fetch : DocFetch) (url : String) :
    (get_eo_data fetch url).url = url ∧
    (extractionFails fetch = true → get_eo_data fetch url = sentinelRecord url) := by
  constructor
  · cases fetch with
    | fetchFailure => rfl
    | fetched pg =>
      rcases pg with ⟨hl, tt, ps⟩
      cases hl <;> cases tt <;> rfl
  · intro hfail
    cases fetch with
    | fetchFailure => rfl
    | fetched pg =>
      rcases pg with ⟨hl, tt, ps⟩
      cases hl with
      | none => rfl
      | some t =>
        cases tt with
        | none => rfl
        | some d => simp [extractionFails] at hfail

/-- Witness for C2 at a concrete timed-out fetch: the sentinel record with
the original url comes back. -/
theorem get_eo_data_sentinel_witness :
    (get_eo_data DocFetch.fetchFailure "https://example.org/eo-1/").url =
      "https://example.org/eo-1/" ∧
    get_eo_data DocFetch.fetchFailure "https://example.org/eo-1/" =
      sentinelRecord "https://example.org/eo-1/" :=
  ⟨(get_eo_data_sentinel DocFetch.fetchFailure "https://example.org/eo-1/").1,
   (get_eo_data_sentinel DocFetch.fetchFailure "https://example.org/eo-1/").2 rfl⟩

/-! ## Theorems: C6, C7, C8 (crawler) -/

/-- Counterexample to C6: with a pagination control present but listing no
page-number links, the run does not complete with `total_pages = 1` — the
`[-1]` at line 434 raises `IndexError`, which escapes the loop (it is
outside the `try` of lines 415-424) and aborts the crawl. -/
theorem empty_pagination_counterexample :
    scrape_eo_links siteEmptyPagination docsEmptyPagination =
      Except.error CrawlError.indexError := by
  unfold scrape_eo_links
  exact crawlLoop_error_step _ _ _ _ (by decide) (by decide)

/-- C6 as amended: whenever the first listing page yields a (truthy)
pagination control with an empty page-number anchor list, the crawl
aborts with `IndexError` instead of completing as a single-page listing;
`total_pages = 1` completion is reserved for an *absent* control. -/
theorem empty_pagination_aborts (site : String → FetchResult)
    (docs : String → DocFetch) (hrefs : List String)
    (h : site foundation_url = FetchResult.success (Option.some []) hrefs) :
    scrape_eo_links site docs = Except.error CrawlError.indexError := by
  unfold scrape_eo_links
  refine crawlLoop_error_step _ _ _ _ (by decide) ?_
  simp [crawlStep, h, resolveTotalPages]

/-- Witness for C6's amended theorem on a concrete remote. -/
theorem empty_pagination_aborts_witness :
    scrape_eo_links siteEmptyPaginationW docsEmptyPaginationW =
      Except.error CrawlError.indexError :=
  empty_pagination_aborts siteEmptyPaginationW docsEmptyPaginationW
    ["https://www.whitehouse.gov/presidential-actions/some-eo/"] (by decide)

/-- Counterexample to C7: page 1 resolves 5 pages, then every fetch of
`page/2/` fails.  The cursor walks 2,3,4,5 but `selected_url` is never
recomputed on the failure path (the `continue` at line 428 skips line
463), so iterations 3,4,5 fetch `page/2/` again instead of the cursor's
page — the fetched URL does not correspond to the cursor. -/
theorem cursor_url_mismatch_counterexample :
    scrape_eo_links siteFailAfterFirst docsFailAfterFirst =
      Except.ok { currentPage := 6, totalPages := 5, selectedUrl := pageUrl 2,
                  eoLinks := [], eoData := [], printedPages := [1, 2, 3, 4, 5],
                  fetchedUrls := [foundation_url, pageUrl 2, pageUrl 2,
                    pageUrl 2, pageUrl 2] } ∧
    pageUrl 2 ≠ pageUrl 3 := by
  constructor
  · unfold scrape_eo_links
    rw [crawlLoop_ok_step siteFailAfterFirst docsFailAfterFirst
        ⟨1, 1, foundation_url, [], [], [], []⟩
        ⟨2, 5, pageUrl 2, [], [], [1], [foundation_url]⟩ (by decide) (by decide)]
    rw [crawlLoop_ok_step siteFailAfterFirst docsFailAfterFirst
        ⟨2, 5, pageUrl 2, [], [], [1], [foundation_url]⟩
        ⟨3, 5, pageUrl 2, [], [], [1, 2], [foundation_url, pageUrl 2]⟩
        (by decide) (by decide)]
    rw [crawlLoop_ok_step siteFailAfterFirst docsFailAfterFirst
        ⟨3, 5, pageUrl 2, [], [], [1, 2], [foundation_url, pageUrl 2]⟩
        ⟨4, 5, pageUrl 2, [], [], [1, 2, 3],
          [foundation_url, pageUrl 2, pageUrl 2]⟩ (by decide) (by decide)]
    rw [crawlLoop_ok_step siteFailAfterFirst docsFailAfterFirst
        ⟨4, 5, pageUrl 2, [], [], [1, 2, 3],
          [foundation_url, pageUrl 2, pageUrl 2]⟩
        ⟨5, 5, pageUrl 2, [], [], [1, 2, 3, 4],
          [foundation_url, pageUrl 2, pageUrl 2, pageUrl 2]⟩
        (by decide) (by decide)]
    rw [crawlLoop_ok_step siteFailAfterFirst docsFailAfterFirst
        ⟨5, 5, pageUrl 2, [], [], [1, 2, 3, 4],
          [foundation_url, pageUrl 2, pageUrl 2, pageUrl 2]⟩
        ⟨6, 5, pageUrl 2, [], [], [1, 2, 3, 4, 5],
          [foundation_url, pageUrl 2, pageUrl 2, pageUrl 2, pageUrl 2]⟩
        (by decide) (by decide)]
    rw [crawlLoop_stop siteFailAfterFirst docsFailAfterFirst
        ⟨6, 5, pageUrl 2, [], [], [1, 2, 3, 4, 5],
          [foundation_url, pageUrl 2, pageUrl 2, pageUrl 2, pageUrl 2]⟩
        (by decide)]
  · decide

/-- Helper: on a successful fetch, `selected_url` is recomputed for the
new cursor value (line 463). -/
theorem crawlStep_ok_selectedUrl (site : String → FetchResult)
    (docs : String → DocFetch) (s s2 : CrawlState)
    (h : crawlStep site docs s = Except.ok s2)
    (hnf : site s.selectedUrl ≠ FetchResult.failure) :
    s2.selectedUrl = pageUrl (s.currentPage + 1) := by
  unfold crawlStep at h
  split at h
  · next heq => exact absurd heq hnf
  · split at h
    · exact absurd h (by simp)
    · injection h with h2
      subst h2
      rfl

/-- C7 as amended: every completed iteration of the loop advances
`current_page` by exactly one; a fetch/wait failure does not abort the run
(it yields a normal next state) but leaves `selected_url` *unchanged*,
so the next iteration re-fetches the same URL; only a successful
iteration recomputes `selected_url` for the new cursor value. -/
theorem crawlStep_cursor_advance (site : String → FetchResult)
    (docs : String → DocFetch) (s : CrawlState) :
    (site s.selectedUrl = FetchResult.failure →
      crawlStep site docs s = Except.ok { s with
        currentPage := s.currentPage + 1,
        printedPages := s.printedPages ++ [s.currentPage],
        fetchedUrls := s.fetchedUrls ++ [s.selectedUrl] }) ∧
    (∀ s2, crawlStep site docs s = Except.ok s2 →
      s2.currentPage = s.currentPage + 1 ∧
      (site s.selectedUrl ≠ FetchResult.failure →
        s2.selectedUrl = pageUrl (s.currentPage + 1))) := by
  constructor
  · intro hf
    unfold crawlStep
    rw [hf]
  · intro s2 h2
    exact ⟨crawlStep_ok_currentPage site docs s s2 h2,
      crawlStep_ok_selectedUrl site docs s s2 h2⟩

/-- Witness for C7's amended theorem: a concrete failed iteration advances
the cursor from 2 to 3 and keeps `selected_url` at `page/2/`. -/
theorem crawlStep_cursor_advance_witness :
    crawlStep (fun _ => FetchResult.failure) (fun _ => DocFetch.fetchFailure)
      { currentPage := 2, totalPages := 5, selectedUrl := pageUrl 2,
        eoLinks := [], eoData := [], printedPages := [1],
        fetchedUrls := [foundation_url] } =
      Except.ok { currentPage := 3, totalPages := 5, selectedUrl := pageUrl 2,
                  eoLinks := [], eoData := [], printedPages := [1, 2],
                  fetchedUrls := [foundation_url, pageUrl 2] } := by
  have h := (crawlStep_cursor_advance (fun _ => FetchResult.failure)
    (fun _ => DocFetch.fetchFailure)
    { currentPage := 2, totalPages := 5, selectedUrl := pageUrl 2,
      eoLinks := [], eoData := [], printedPages := [1],
      fetchedUrls := [foundation_url] }).1 rfl
  simpa using h

/-- C8: on a listing whose page-1 pagination control resolves 5 pages and
whose five page fetches all succeed, the run ends normally with the
cursor at 6, the iteration-start prints showing the strictly increasing
cursor trace `1,2,3,4,5`, and exactly the five listing URLs fetched, each
corresponding to its cursor value. -/
theorem crawl_five_pages (site : String → FetchResult) (docs : String → DocFetch)
    (ts l1 l2 l3 l4 l5 : List String) (p2 p3 p4 p5 : Option (List String))
    (hts : ts.getLast? = Option.some "5")
    (h1 : site foundation_url = FetchResult.success (Option.some ts) l1)
    (h2 : site (pageUrl 2) = FetchResult.success p2 l2)
    (h3 : site (pageUrl 3) = FetchResult.success p3 l3)
    (h4 : site (pageUrl 4) = FetchResult.success p4 l4)
    (h5 : site (pageUrl 5) = FetchResult.success p5 l5) :
    ∃ final, scrape_eo_links site docs = Except.ok final ∧
      final.printedPages = [1, 2, 3, 4, 5] ∧
      final.currentPage = 6 ∧
      final.fetchedUrls =
        [foundation_url, pageUrl 2, pageUrl 3, pageUrl 4, pageUrl 5] := by
  have hp5 : pyInt "5" = Option.some 5 := by decide
  have e1 : ∃ L D, crawlStep site docs
      ⟨1, 1, foundation_url, [], [], [], []⟩ =
      Except.ok ⟨2, 5, pageUrl 2, L, D, [1], [foundation_url]⟩ :=
    ⟨(collectNewLinks [] l1).2,
      List.map (fun u => get_eo_data (docs u) u) (collectNewLinks [] l1).1,
      by simp [crawlStep, h1, resolveTotalPages, hts, hp5]⟩
  obtain ⟨L1, D1, e1⟩ := e1
  have e2 : ∃ L D, crawlStep site docs
      ⟨2, 5, pageUrl 2, L1, D1, [1], [foundation_url]⟩ =
      Except.ok ⟨3, 5, pageUrl 3, L, D, [1, 2], [foundation_url, pageUrl 2]⟩ :=
    ⟨(collectNewLinks L1 l2).2,
      D1 ++ List.map (fun u => get_eo_data (docs u) u) (collectNewLinks L1 l2).1,
      by simp [crawlStep, h2]⟩
  obtain ⟨L2, D2, e2⟩ := e2
  have e3 : ∃ L D, crawlStep site docs
      ⟨3, 5, pageUrl 3, L2, D2, [1, 2], [foundation_url, pageUrl 2]⟩ =
      Except.ok ⟨4, 5, pageUrl 4, L, D, [1, 2, 3],
        [foundation_url, pageUrl 2, pageUrl 3]⟩ :=
    ⟨(collectNewLinks L2 l3).2,
      D2 ++ List.map (fun u => get_eo_data (docs u) u) (collectNewLinks L2 l3).1,
      by simp [crawlStep, h3]⟩
  obtain ⟨L3, D3, e3⟩ := e3
  have e4 : ∃ L D, crawlStep site docs
      ⟨4, 5, pageUrl 4, L3, D3, [1, 2, 3], [foundation_url, pageUrl 2, pageUrl 3]⟩ =
      Except.ok ⟨5, 5, pageUrl 5, L, D, [1, 2, 3, 4],
        [foundation_url, pageUrl 2, pageUrl 3, pageUrl 4]⟩ :=
    ⟨(collectNewLinks L3 l4).2,
      D3 ++ List.map (fun u => get_eo_data (docs u) u) (collectNewLinks L3 l4).1,
      by simp [crawlStep, h4]⟩
  obtain ⟨L4, D4, e4⟩ := e4
  have e5 : ∃ L D, crawlStep site docs
      ⟨5, 5, pageUrl 5, L4, D4, [1, 2, 3, 4],
        [foundation_url, pageUrl 2, pageUrl 3, pageUrl 4]⟩ =
      Except.ok ⟨6, 5, pageUrl 6, L, D, [1, 2, 3, 4, 5],
        [foundation_url, pageUrl 2, pageUrl 3, pageUrl 4, pageUrl 5]⟩ :=
    ⟨(collectNewLinks L4 l5).2,
      D4 ++ List.map (fun u => get_eo_data (docs u) u) (collectNewLinks L4 l5).1,
      by simp [crawlStep, h5]⟩
  obtain ⟨L5, D5, e5⟩ := e5
  refine ⟨⟨6, 5, pageUrl 6, L5, D5, [1, 2, 3, 4, 5],
    [foundation_url, pageUrl 2, pageUrl 3, pageUrl 4, pageUrl 5]⟩, ?_, rfl, rfl, rfl⟩
  unfold scrape_eo_links
  rw [crawlLoop_ok_step _ _ _ _ (by simp) e1,
    crawlLoop_ok_step _ _ _ _ (by simp) e2,
    crawlLoop_ok_step _ _ _ _ (by simp) e3,
    crawlLoop_ok_step _ _ _ _ (by simp) e4,
    crawlLoop_ok_step _ _ _ _ (by simp) e5,
    crawlLoop_stop _ _ _ (by simp)]

/-- Witness for C8 on a concrete five-page remote. -/
theorem crawl_five_pages_witness :
    ∃ final, scrape_eo_links siteFivePages docsFivePages = Except.ok final ∧
      final.printedPages = [1, 2, 3, 4, 5] ∧
      final.currentPage = 6 ∧
      final.fetchedUrls =
        [foundation_url, pageUrl 2, pageUrl 3, pageUrl 4, pageUrl 5] :=
  crawl_five_pages siteFivePages docsFivePages
    ["1", "2", "3", "4", "5"] [] [] [] [] []
    Option.none Option.none Option.none Option.none
    (by decide) (by decide) (by decide) (by decide) (by decide) (by decide)

/-! ## Theorems: C9 (search) -/

theorem anySuffix_isEmpty (us : List Char) :
    anySuffix List.isEmpty us = true := by
  induction us with
  | nil => rfl
  | cons u us ih => simp [anySuffix, ih]

/-- A wildcard-free pattern followed by `%` matches exactly the texts it
is an ASCII-case-insensitive prefix of. -/
theorem likeMatch_lit : ∀ (s : List Char), (∀ c ∈ s, c ≠ '%' ∧ c ≠ '_') →
    ∀ us, likeMatch (s ++ [ '%' ]) us = startsWithCI s us := by
  intro s
  induction s with
  | nil =>
    intro _ us
    simp [likeMatch, startsWithCI, anySuffix_isEmpty]
  | cons c s ih =>
    intro hw us
    have hc := hw c (by simp)
    have hs : ∀ c ∈ s, c ≠ '%' ∧ c ≠ '_' :=
      fun x hx => hw x (List.mem_cons_of_mem _ hx)
    cases us with
    | nil => simp [likeMatch, startsWithCI, hc.1, hc.2]
    | cons u us => simp [likeMatch, startsWithCI, hc.1, hc.2, ih hs]

/-- For a wildcard-free query `q`, the `%q%` pattern matches a text
exactly when `q` occurs in it as an ASCII-case-insensitive substring. -/
theorem likeMatch_pct_eq_ciContains (q : List Char)
    (hw : ∀ c ∈ q, c ≠ '%' ∧ c ≠ '_') :
    ∀ ts, likeMatch ('%' :: (q ++ [ '%' ])) ts = ciContains ts q := by
  have hfun : (fun rest => likeMatch (q ++ [ '%' ]) rest) = startsWithCI q := by
    funext us
    exact likeMatch_lit q hw us
  intro ts
  simp only [likeMatch]
  rw [hfun]
  induction ts with
  | nil => rfl
  | cons t ts ih => simp [anySuffix, ciContains, ih]

theorem startsWithCI_iff : ∀ (s us : List Char),
    startsWithCI s us = true ↔
      List.IsPrefix (s.map asciiLowerChar) (us.map asciiLowerChar) := by
  intro s
  induction s with
  | nil =>
    intro us
    simp [startsWithCI]
  | cons c s ih =>
    intro us
    cases us with
    | nil => simp [startsWithCI, List.prefix_nil]
    | cons u us =>
      simp [startsWithCI, likeCharEq, ih, List.cons_prefix_cons]

/-- What `ciContains` means: the ASCII-lowered needle occurs as a
contiguous sublist of the ASCII-lowered haystack. -/
theorem ciContains_iff : ∀ (ts s : List Char),
    ciContains ts s = true ↔
      List.IsInfix (s.map asciiLowerChar) (ts.map asciiLowerChar) := by
  intro ts
  induction ts with
  | nil =>
    intro s
    simp [ciContains, startsWithCI_iff, List.prefix_nil, List.infix_nil]
  | cons t ts ih =>
    intro s
    simp [ciContains, startsWithCI_iff, ih, List.infix_cons_iff]

/-- Counterexample to C9: the query `"b"` is not a case-sensitive
substring of any field of the stored row (title `"ABC"`), yet
`perform_search` returns the row, because SQLite `LIKE` compares ASCII
letters case-insensitively. -/
theorem perform_search_counterexample :
    perform_search
      [{ id := 1, title := "ABC", date := "2025-01-01", content := "x", url := "u" }]
      "b" = [(1, "ABC", "2025-01-01")] ∧
    claimSearch
      [{ id := 1, title := "ABC", date := "2025-01-01", content := "x", url := "u" }]
      "b" = [] := by
  decide

/-- C9 as amended: for a query without the SQL wildcard characters `%`
and `_`, `perform_search` returns exactly the records one of whose id,
title, date, content or url contains the query as an ASCII-case-
insensitive substring (see `ciContains_iff`), and no others. -/
theorem perform_search_ci (db : List EORecord) (q : String)
    (hq : ∀ c ∈ q.data, c ≠ '%' ∧ c ≠ '_') :
    perform_search db q =
      (db.filter (fun r => (rowFields r).any (fun f => ciContains f.data q.data))).map
        (fun r => (r.id, r.title, r.date)) := by
  unfold perform_search
  congr 1
  apply List.filter_congr
  intro r _
  simp only [likePattern]
  simp only [likeMatch_pct_eq_ciContains q.data hq]

/-- Witness for C9's amended theorem on a concrete store and the wildcard-
free query `"2025"`. -/
theorem perform_search_ci_witness :
    perform_search
      [{ id := 1, title := "EO on AI", date := "2025-01-20", content := "c", url := "u" }]
      "2025" =
      (([{ id := 1, title := "EO on AI", date := "2025-01-20", content := "c",
           url := "u" }] : List EORecord).filter
        (fun r => (rowFields r).any (fun f => ciContains f.data "2025".data))).map
        (fun r => (r.id, r.title, r.date)) :=
  perform_search_ci _ _ (by decide)
